import Mathlib

/-!
Verification of the rvtr-api-demo browser client.

This file gives a shallow embedding, in Lean, of the control logic of the
client's transport and voice-capture layers, translated from the TypeScript
source:

* `HttpClient.request` with its retry / token-refresh policy (src/api/http);
* the coalesced `refreshToken` promise discipline;
* the chat-history merge (`mapHistoryItemToUiMessages` / `loadChatHistory`);
* the client-side VAD tick loop of `startRecording`;
* the reconnect state machine of `RavatarWsClient`;
* the inbound frame router `handleIncomingMessage`;
* `handleStopLive`, the push-to-talk handlers, and `RavatarApi.getJWT`.

Conventions used by the embedding:

* JavaScript optional / possibly-absent string fields become `Option String`;
  JavaScript truthiness of such a field (`undefined`, `null` and `""` are
  falsy) is the `truthy` predicate below.
* Machine clocks (`Date.now()`) are `Nat` milliseconds.  Real clocks are
  positive (milliseconds since 1970), which theorems assume where the source
  uses `0` as an `unset` sentinel.
* Asynchronous calls are modelled by passing the eventual outcome of the
  awaited operation (e.g. the list of fetch responses an HTTP call will
  observe, or whether audio playback succeeds) as an explicit argument.
* Fields irrelevant to control flow (random UUIDs, ISO-rendered timestamps
  of wall-clock `new Date()`) are omitted from effect records; timestamps
  that do steer behaviour (history `date`) are kept as integers.
-/

/-- JavaScript truthiness of a possibly-absent string field:
`undefined` and `""` are falsy, every other string is truthy. -/
def truthy : Option String → Bool
  | none => false
  | some s => s != ""

deriving instance DecidableEq for Except

namespace HttpClient

/-- `MAX_RETRY_ATTEMPTS` retry configuration constant. -/
def MAX_RETRY_ATTEMPTS : Nat := 3

/-- `BASE_RETRY_DELAY_MS` retry configuration constant. -/
def BASE_RETRY_DELAY_MS : Nat := 1000

/-- `RETRYABLE_STATUS_CODES` — the 503/504 transient statuses. -/
def RETRYABLE_STATUS_CODES : List Nat := [503, 504]

/-- `AUTH_EXPIRED_STATUS_CODE`. -/
def AUTH_EXPIRED_STATUS_CODE : Nat := 403

/-- `PAYMENT_REQUIRED_STATUS_CODE`. -/
def PAYMENT_REQUIRED_STATUS_CODE : Nat := 402

/-- Outcome of one `fetch` inside `request`: either `response.ok`
or a non-ok response with a status code.  (Network-level failures are not
needed by the claims and are omitted.) -/
inductive FetchResult where
  | ok : FetchResult
  | err (status : Nat) : FetchResult
deriving DecidableEq

/-- Observable events of one logical `request` call:
an attempt (one `fetch`), a token refresh (`await this.refreshToken()`),
and a backoff delay (`await new Promise(... setTimeout(resolve, delay))`). -/
inductive ReqEvent where
  | attempt : ReqEvent
  | refresh : ReqEvent
  | delay (ms : Nat) : ReqEvent
deriving DecidableEq

/-- Result of a logical `request` call.  `noResponse` is a model artifact:
the finite response oracle ran out (never occurs in the theorems below). -/
inductive ReqOutcome where
  | success : ReqOutcome
  | apiError (message : String) (status : Nat) : ReqOutcome
  | noResponse : ReqOutcome
deriving DecidableEq

/-- Shallow embedding of `HttpClient.request`.  Each recursive call consumes
one fetch response from `responses`; `retryCount` is the accumulator the
source threads through both the 403 branch and the 503/504 branch.
`hasRefreshJwt` models whether `config.refreshJwt` is provided; a provided
refresh handler is assumed to succeed (its coalescing is modelled separately
by `refreshToken` below). -/
def request (hasRefreshJwt : Bool) :
    List FetchResult → Nat → ReqOutcome × List ReqEvent
  | [], _ => (.noResponse, [])
  | r :: rest, retryCount =>
    match r with
    | .ok => (.success, [.attempt])
    | .err status =>
      if status == AUTH_EXPIRED_STATUS_CODE then
        if retryCount == 0 then
          if hasRefreshJwt then
            let rec' := request hasRefreshJwt rest (retryCount + 1)
            (rec'.1, .attempt :: .refresh :: rec'.2)
          else
            (.apiError "JWT expired and no refreshJwt handler provided" status,
              [.attempt])
        else
          (.apiError "Authentication failed after token refresh." status,
            [.attempt])
      else if status == PAYMENT_REQUIRED_STATUS_CODE then
        (.apiError "Payment required. Please check your account balance."
          status, [.attempt])
      else if RETRYABLE_STATUS_CODES.contains status then
        if retryCount < MAX_RETRY_ATTEMPTS then
          let d := 2 ^ retryCount * BASE_RETRY_DELAY_MS
          let rec' := request hasRefreshJwt rest (retryCount + 1)
          (rec'.1, .attempt :: .delay d :: rec'.2)
        else
          (.apiError "Service temporarily unavailable. Please try again later."
            status, [.attempt])
      else
        (.apiError "HTTP error" status, [.attempt])

/-- The backoff delays recorded in an event trace, in order. -/
def delays : List ReqEvent → List Nat
  | [] => []
  | .delay d :: evs => d :: delays evs
  | _ :: evs => delays evs

/-- Number of fetch attempts recorded in an event trace. -/
def attempts (evs : List ReqEvent) : Nat :=
  (evs.filter (fun e => e == .attempt)).length

/-- Number of refresh operations recorded in an event trace. -/
def refreshes (evs : List ReqEvent) : Nat :=
  (evs.filter (fun e => e == .refresh)).length

/-- State of the coalesced-refresh discipline of `HttpClient`:
`refreshPromise` holds the id of the in-flight refresh future, if any;
`started` counts how many refresh operations were actually begun (ghost). -/
structure RefreshState where
  refreshPromise : Option Nat
  nextId : Nat
  started : Nat
deriving DecidableEq

/-- Shallow embedding of `HttpClient.refreshToken` (the promise-cell logic):
if a refresh future is in flight, return it; otherwise start a new one.
Returns the future's id the caller awaits. -/
def refreshToken (s : RefreshState) : RefreshState × Nat :=
  match s.refreshPromise with
  | some p => (s, p)
  | none =>
    ({ refreshPromise := some s.nextId, nextId := s.nextId + 1,
       started := s.started + 1 }, s.nextId)

/-- Shallow embedding of the `.finally` continuation of the refresh future:
resolution clears the promise cell. -/
def resolveRefresh (s : RefreshState) : RefreshState :=
  { s with refreshPromise := none }

end HttpClient

namespace HttpClient

/-- C1: for every REST call through the request client and every sequence of
503/504-classified responses of length `k ≤ 3`, each failed attempt is
retried after delays 1000ms, 2000ms, 4000ms respectively (base delay 1000ms,
doubling each attempt), the call succeeds on the first non-503/504 success
response without exceeding the ceiling (`k + 1` fetch attempts in total),
and a 503/504 received after the third retry is terminal and surfaced as a
service-unavailable error. -/
theorem C1_retry_backoff (s k : Nat) (hs : s = 503 ∨ s = 504) (hk : k ≤ 3) :
    (request true (List.replicate k (FetchResult.err s) ++ [.ok]) 0).1 =
      ReqOutcome.success ∧
    delays (request true (List.replicate k (FetchResult.err s) ++ [.ok]) 0).2 =
      List.take k [1000, 2000, 4000] ∧
    attempts
        (request true (List.replicate k (FetchResult.err s) ++ [.ok]) 0).2 =
      k + 1 ∧
    (request true (List.replicate 4 (FetchResult.err s)) 0).1 =
      ReqOutcome.apiError
        "Service temporarily unavailable. Please try again later." s := by
  rcases hs with rfl | rfl <;> interval_cases k <;> decide

/-- Witness for C1 at a concrete input (two 503s, then success). -/
theorem C1_retry_backoff_witness :
    ((503 : Nat) = 503 ∨ (503 : Nat) = 504) ∧ (2 : Nat) ≤ 3 ∧
    ((request true (List.replicate 2 (FetchResult.err 503) ++ [.ok]) 0).1 =
        ReqOutcome.success ∧
      delays
          (request true
            (List.replicate 2 (FetchResult.err 503) ++ [.ok]) 0).2 =
        List.take 2 [1000, 2000, 4000] ∧
      attempts
          (request true
            (List.replicate 2 (FetchResult.err 503) ++ [.ok]) 0).2 = 2 + 1 ∧
      (request true (List.replicate 4 (FetchResult.err 503)) 0).1 =
        ReqOutcome.apiError
          "Service temporarily unavailable. Please try again later." 503) :=
  ⟨Or.inl rfl, by decide, C1_retry_backoff 503 2 (Or.inl rfl) (by decide)⟩

/-- C2: a 403-classified response on the first attempt of a logical call
triggers exactly one credential refresh and exactly one replay (trace
`attempt, refresh, attempt` ending in success when the replay succeeds);
a second 403 after the refresh is terminal and surfaced with no second
refresh; and the refresh is coalesced: a second `refreshToken` call while a
refresh future is in flight returns the same future, starts no duplicate
refresh, and a single call starts at most one refresh operation. -/
theorem C2_auth_refresh_once :
    request true [FetchResult.err 403, .ok] 0 =
      (ReqOutcome.success, [ReqEvent.attempt, .refresh, .attempt]) ∧
    request true [FetchResult.err 403, .err 403] 0 =
      (ReqOutcome.apiError "Authentication failed after token refresh." 403,
        [ReqEvent.attempt, .refresh, .attempt]) ∧
    ∀ st : RefreshState,
      (refreshToken (refreshToken st).1).2 = (refreshToken st).2 ∧
      (refreshToken (refreshToken st).1).1 = (refreshToken st).1 ∧
      (refreshToken st).1.started ≤ st.started + 1 := by
  refine ⟨by decide, by decide, ?_⟩
  intro st
  cases h : st.refreshPromise <;> simp [refreshToken, h]

end HttpClient

namespace History

/-- One record of the REST history payload (`ChatHistoryMessage`), keeping
the fields the merge inspects.  The TS interface declares `request` and
`direction` as required, but the mapper guards every access (`item.request`
truthiness, `!direction`), so they are embedded as optional wire data.
`date` is the record's original unix timestamp (ms). -/
structure ChatHistoryMessage where
  direction : Option String
  request : Option String
  answer : Option String
  date : Int
  fileUrl : Option String
deriving DecidableEq

/-- A UI chat turn (`ChatMessage`).  The random `id` is omitted; the ISO
`timestamp` string is represented by the `date` integer it renders
(`new Date(item.date).toISOString()` is injective and monotone in
`item.date`). -/
structure ChatMessage where
  role : String
  content : String
  timestamp : Int
  fileUrl : Option String
  isHistory : Bool
deriving DecidableEq

/-- Shallow embedding of `mapHistoryItemToUiMessages`: a user turn only from
an outgoing-or-untagged record with (truthy) `request`, then an assistant
turn only from an incoming-or-untagged record with (truthy) `answer`. -/
def mapHistoryItemToUiMessages (item : ChatHistoryMessage) : List ChatMessage :=
  let userPart : List ChatMessage :=
    if (item.direction == some "outgoing" || !truthy item.direction)
        && truthy item.request then
      [{ role := "user", content := item.request.getD "",
         timestamp := item.date, fileUrl := none, isHistory := true }]
    else []
  let assistantPart : List ChatMessage :=
    if (item.direction == some "incoming" || !truthy item.direction)
        && truthy item.answer then
      [{ role := "assistant", content := item.answer.getD "",
         timestamp := item.date, fileUrl := item.fileUrl, isHistory := true }]
    else []
  userPart ++ assistantPart

/-- The sort order of `loadChatHistory`'s comparator
`(a, b) => (a.date ?? 0) - (b.date ?? 0)` (dates present per the wire type):
ascending by `date`. -/
def historyLe (a b : ChatHistoryMessage) : Bool := a.date ≤ b.date

/-- Shallow embedding of the pure core of `loadChatHistory`: stable-sort the
payload ascending by `date` (JS `Array.prototype.sort` is stable), then
flat-map each record through `mapHistoryItemToUiMessages`. -/
def loadChatHistoryMessages (payload : List ChatHistoryMessage) :
    List ChatMessage :=
  (payload.mergeSort historyLe).flatMap mapHistoryItemToUiMessages

theorem historyLe_trans (a b c : ChatHistoryMessage) :
    historyLe a b → historyLe b c → historyLe a c := by
  simp only [historyLe, decide_eq_true_eq]
  omega

theorem historyLe_total (a b : ChatHistoryMessage) :
    historyLe a b || historyLe b a := by
  simp only [historyLe, Bool.or_eq_true, decide_eq_true_eq]
  omega

/-- Ties in the history sort keep their original relative order
(stability of the stable sort used by `loadChatHistory`). -/
theorem mergeSort_stable_ties (payload : List ChatHistoryMessage) (k : Int) :
    (payload.mergeSort historyLe).filter (fun it => it.date == k) =
      payload.filter (fun it => it.date == k) := by
  set p : ChatHistoryMessage → Bool := fun it => it.date == k with hp
  have hmem : ∀ x ∈ payload.filter p, x.date = k := by
    intro x hx
    have := List.of_mem_filter hx
    simpa [hp] using this
  have hpw : (payload.filter p).Pairwise (fun a b => historyLe a b) := by
    apply List.pairwise_of_forall_mem_list
    intro a ha b hb
    have := hmem a ha
    have := hmem b hb
    simp [historyLe]
    omega
  have hsub : List.Sublist (payload.filter p) (payload.mergeSort historyLe) :=
    List.sublist_mergeSort historyLe_trans historyLe_total hpw
      (List.filter_sublist payload)
  have hfil : (payload.filter p).filter p = payload.filter p := by
    rw [List.filter_eq_self]
    intro a ha
    exact List.of_mem_filter ha
  have h1 : List.Sublist (payload.filter p) ((payload.mergeSort historyLe).filter p) := by
    have := hsub.filter p
    rwa [hfil] at this
  have hperm : List.Perm ((payload.mergeSort historyLe).filter p) (payload.filter p) :=
    (List.mergeSort_perm payload historyLe).filter p
  exact (h1.eq_of_length hperm.length_eq.symm).symm

/-- C3: the history merge sorts the fetched records ascending by their
original timestamp with a stable sort (ties keep original relative order),
and maps each record to zero, one or two turns: a user turn only from an
outgoing-or-untagged record carrying request text, an assistant turn only
from an incoming-or-untagged record carrying answer text; an untagged record
carrying both produces exactly two turns (user then assistant), a record
carrying neither produces zero turns, and every produced turn is marked
historical. -/
theorem C3_history_merge (payload : List ChatHistoryMessage) (item : ChatHistoryMessage) :
    loadChatHistoryMessages payload =
      (payload.mergeSort historyLe).flatMap mapHistoryItemToUiMessages ∧
    (payload.mergeSort historyLe).Pairwise (fun a b => a.date ≤ b.date) ∧
    (∀ k : Int,
      (payload.mergeSort historyLe).filter (fun it => it.date == k) =
        payload.filter (fun it => it.date == k)) ∧
    (∀ m ∈ mapHistoryItemToUiMessages item, m.role = "user" →
      ((item.direction == some "outgoing" || !truthy item.direction)
          && truthy item.request) = true) ∧
    (∀ m ∈ mapHistoryItemToUiMessages item, m.role = "assistant" →
      ((item.direction == some "incoming" || !truthy item.direction)
          && truthy item.answer) = true) ∧
    (truthy item.direction = false → truthy item.request = true →
      truthy item.answer = true →
      mapHistoryItemToUiMessages item =
        [{ role := "user", content := item.request.getD "",
           timestamp := item.date, fileUrl := none, isHistory := true },
         { role := "assistant", content := item.answer.getD "",
           timestamp := item.date, fileUrl := item.fileUrl,
           isHistory := true }]) ∧
    (truthy item.request = false → truthy item.answer = false →
      mapHistoryItemToUiMessages item = []) ∧
    (∀ m ∈ mapHistoryItemToUiMessages item, m.isHistory = true) := by
  refine ⟨rfl, ?_, mergeSort_stable_ties payload, ?_, ?_, ?_, ?_, ?_⟩
  · have h := List.sorted_mergeSort historyLe_trans historyLe_total payload
    exact h.imp (by simp [historyLe])
  · intro m hm hrole
    simp only [mapHistoryItemToUiMessages] at hm
    rcases List.mem_append.mp hm with h | h <;> split at h <;>
      simp_all
  · intro m hm hrole
    simp only [mapHistoryItemToUiMessages] at hm
    rcases List.mem_append.mp hm with h | h <;> split at h <;>
      simp_all
  · intro h1 h2 h3
    simp [mapHistoryItemToUiMessages, h1, h2, h3]
  · intro h1 h2
    simp [mapHistoryItemToUiMessages, h1, h2]
  · intro m hm
    simp only [mapHistoryItemToUiMessages] at hm
    rcases List.mem_append.mp hm with h | h <;> split at h <;>
      simp_all


/-- Witness for C3: a concrete untagged record carrying both request and
answer yields exactly the user turn then the assistant turn, and a concrete
payload with tied timestamps keeps its original order. -/
theorem C3_history_merge_witness :
    mapHistoryItemToUiMessages
        { direction := none, request := some "hi", answer := some "hello",
          date := 1, fileUrl := none } =
      [{ role := "user", content := "hi", timestamp := 1, fileUrl := none,
         isHistory := true },
       { role := "assistant", content := "hello", timestamp := 1,
         fileUrl := none, isHistory := true }] ∧
    (([{ direction := some "outgoing", request := some "hi", answer := none,
         date := 1, fileUrl := none },
       { direction := some "incoming", request := none,
         answer := some "hello", date := 1, fileUrl := none }] :
        List ChatHistoryMessage).mergeSort historyLe).filter
        (fun it => it.date == 1) =
      ([{ direction := some "outgoing", request := some "hi", answer := none,
          date := 1, fileUrl := none },
        { direction := some "incoming", request := none,
          answer := some "hello", date := 1, fileUrl := none }] :
        List ChatHistoryMessage).filter (fun it => it.date == 1) := by
  have h := C3_history_merge
    [{ direction := some "outgoing", request := some "hi", answer := none,
       date := 1, fileUrl := none },
     { direction := some "incoming", request := none, answer := some "hello",
       date := 1, fileUrl := none }]
    { direction := none, request := some "hi", answer := some "hello",
      date := 1, fileUrl := none }
  exact ⟨h.2.2.2.2.2.1 (by decide) (by decide) (by decide), h.2.2.1 1⟩

end History

namespace Vad

/-- `VAD_SPEECH_THRESHOLD` (0.02), as an exact rational. -/
def VAD_SPEECH_THRESHOLD : ℚ := 1 / 50

/-- `VAD_SILENCE_MS`. -/
def VAD_SILENCE_MS : Nat := 900

/-- `VAD_MAX_MS`. -/
def VAD_MAX_MS : Nat := 15000

/-- The rolling detector state of a VAD recording:
`vadSpeechDetectedRef`, `vadLastVoiceTsRef`, `vadStartTsRef`. -/
structure VadState where
  speechDetected : Bool
  lastVoiceTs : Nat
  startTs : Nat
deriving DecidableEq

inductive StopReason where
  | silence : StopReason
  | ceiling : StopReason
deriving DecidableEq

/-- Result of one sampling tick: keep polling with an updated detector
state, or call `stopRecording()` (which transmits: `send` defaults to
`true`). -/
inductive TickOutcome where
  | keepGoing (s : VadState) : TickOutcome
  | stop (r : StopReason) : TickOutcome
deriving DecidableEq

/-- Shallow embedding of the `tick` closure inside `startRecording`:
`now` is `Date.now()` at this animation frame and `rms` the computed
root-mean-square amplitude of the sampled buffer (abstracted to an exact
rational).  An above-threshold sample sets the speech-seen flag and
refreshes the last-voice timestamp; then the silence-window check runs
before the safety-ceiling check.  `Nat` subtraction agrees with the JS
`now - ts` here: a negative JS difference never reaches either window,
and truncation to `0` does not either. -/
def tick (s : VadState) (now : Nat) (rms : ℚ) : TickOutcome :=
  let speechDetected := if VAD_SPEECH_THRESHOLD ≤ rms then true
    else s.speechDetected
  let lastVoiceTs := if VAD_SPEECH_THRESHOLD ≤ rms then now else s.lastVoiceTs
  if speechDetected = true ∧ lastVoiceTs ≠ 0 ∧
      VAD_SILENCE_MS ≤ now - lastVoiceTs then
    .stop .silence
  else if s.startTs ≠ 0 ∧ VAD_MAX_MS ≤ now - s.startTs then
    .stop .ceiling
  else
    .keepGoing { s with speechDetected := speechDetected,
                        lastVoiceTs := lastVoiceTs }

/-- Run the tick loop over a finite sample stream; returns the first stop
(timestamp and reason) if one fires, together with the detector state after
the consumed prefix. -/
def runSt (s : VadState) :
    List (Nat × ℚ) → Option (Nat × StopReason) × VadState
  | [] => (none, s)
  | (now, rms) :: rest =>
    match tick s now rms with
    | .keepGoing s1 => runSt s1 rest
    | .stop r => (some (now, r), s)

/-- The first stop produced by the tick loop on a sample stream. -/
def run (s : VadState) (samples : List (Nat × ℚ)) :
    Option (Nat × StopReason) :=
  (runSt s samples).1

/-- Detector state set up by `startRecording` at time `t0`. -/
def initState (t0 : Nat) : VadState :=
  { speechDetected := false, lastVoiceTs := 0, startTs := t0 }

/-- Samples of constant amplitude `c` at 1ms cadence `b+1, …, b+n`. -/
def constSamples (c : ℚ) (b n : Nat) : List (Nat × ℚ) :=
  (List.range n).map (fun i => (b + 1 + i, c))

theorem constSamples_succ (c : ℚ) (b n : Nat) :
    constSamples c b (n + 1) = constSamples c b n ++ [(b + 1 + n, c)] := by
  simp [constSamples, List.range_succ]

theorem constSamples_cons (c : ℚ) (b n : Nat) :
    constSamples c b (n + 1) = (b + 1, c) :: constSamples c (b + 1) n := by
  simp only [constSamples, List.range_succ_eq_map, List.map_cons,
    List.map_map]
  congr 1
  apply List.map_congr_left
  intro i hi
  simp only [Function.comp_apply, Prod.mk.injEq, and_true]
  omega

theorem runSt_append_none (s s1 : VadState) (xs ys : List (Nat × ℚ))
    (h : runSt s xs = (none, s1)) :
    runSt s (xs ++ ys) = runSt s1 ys := by
  induction xs generalizing s with
  | nil =>
    simp only [runSt, Prod.mk.injEq, true_and] at h
    rw [h]
    simp [runSt]
  | cons p rest ih =>
    obtain ⟨now, rms⟩ := p
    simp only [runSt, List.cons_append] at h ⊢
    cases htick : tick s now rms with
    | keepGoing s2 => rw [htick] at h; exact ih s2 h
    | stop r => rw [htick] at h; simp at h

theorem runSt_cons_keep {s s1 : VadState} {now : Nat} {rms : ℚ}
    {rest : List (Nat × ℚ)} (h : tick s now rms = .keepGoing s1) :
    runSt s ((now, rms) :: rest) = runSt s1 rest := by
  simp [runSt, h]

theorem runSt_cons_stop {s : VadState} {now : Nat} {rms : ℚ}
    {rest : List (Nat × ℚ)} {r : StopReason} (h : tick s now rms = .stop r) :
    runSt s ((now, rms) :: rest) = (some (now, r), s) := by
  simp [runSt, h]

theorem tick_speech_keep (s : VadState) (now : Nat) (rms : ℚ)
    (hr : VAD_SPEECH_THRESHOLD ≤ rms) (hc : now < s.startTs + VAD_MAX_MS) :
    tick s now rms =
      .keepGoing { s with speechDetected := true, lastVoiceTs := now } := by
  have h2 : ¬ (s.startTs ≠ 0 ∧ VAD_MAX_MS ≤ now - s.startTs) := by
    simp only [VAD_MAX_MS] at hc ⊢
    omega
  simp only [tick, if_pos hr]
  rw [if_neg (by simp [VAD_SILENCE_MS]), if_neg h2]

theorem tick_quiet_keep (s : VadState) (now : Nat) (rms : ℚ)
    (hr : rms < VAD_SPEECH_THRESHOLD)
    (hsil : now < s.lastVoiceTs + VAD_SILENCE_MS)
    (hc : now < s.startTs + VAD_MAX_MS) :
    tick s now rms = .keepGoing s := by
  have h1 : ¬ (VAD_SILENCE_MS ≤ now - s.lastVoiceTs) := by
    simp only [VAD_SILENCE_MS] at hsil ⊢
    omega
  have h2 : ¬ (s.startTs ≠ 0 ∧ VAD_MAX_MS ≤ now - s.startTs) := by
    simp only [VAD_MAX_MS] at hc ⊢
    omega
  have hr' : ¬ VAD_SPEECH_THRESHOLD ≤ rms := not_le.mpr hr
  simp only [tick, if_neg hr']
  rw [if_neg (by simp [h1]), if_neg h2]

theorem runSt_speech (s : VadState) (b n : Nat) (hn : 1 ≤ n)
    (hc : b + n < s.startTs + VAD_MAX_MS) :
    runSt s (constSamples VAD_SPEECH_THRESHOLD b n) =
      (none, { s with speechDetected := true, lastVoiceTs := b + n }) := by
  induction n generalizing s b with
  | zero => omega
  | succ n ih =>
    rw [constSamples_cons,
      runSt_cons_keep (tick_speech_keep s (b + 1) VAD_SPEECH_THRESHOLD
        le_rfl (by omega))]
    by_cases hn0 : n = 0
    · subst hn0
      simp [constSamples, runSt]
    · rw [ih _ (b + 1) (by omega)
        (by show b + 1 + n < s.startTs + VAD_MAX_MS; omega)]
      simp only [Prod.mk.injEq, true_and]
      congr 1
      omega

theorem runSt_quiet (s : VadState) (b n : Nat)
    (hsil : b + n < s.lastVoiceTs + VAD_SILENCE_MS)
    (hc : b + n < s.startTs + VAD_MAX_MS) :
    runSt s (constSamples 0 b n) = (none, s) := by
  induction n generalizing b with
  | zero => simp [constSamples, runSt]
  | succ n ih =>
    rw [constSamples_cons,
      runSt_cons_keep (tick_quiet_keep s (b + 1) 0
        (by norm_num [VAD_SPEECH_THRESHOLD]) (by omega) (by omega))]
    exact ih (b + 1) (by omega) (by omega)

theorem tick_stop_silence (s : VadState) (now : Nat) (rms : ℚ)
    (hr : rms < VAD_SPEECH_THRESHOLD) (hsp : s.speechDetected = true)
    (hlv : s.lastVoiceTs ≠ 0) (hsil : VAD_SILENCE_MS ≤ now - s.lastVoiceTs) :
    tick s now rms = .stop .silence := by
  simp only [tick, if_neg (not_le.mpr hr)]
  rw [if_pos ⟨hsp, hlv, hsil⟩]

theorem tick_stop_ceiling_speech (s : VadState) (now : Nat) (rms : ℚ)
    (hr : VAD_SPEECH_THRESHOLD ≤ rms) (hst : s.startTs ≠ 0)
    (hc : VAD_MAX_MS ≤ now - s.startTs) :
    tick s now rms = .stop .ceiling := by
  simp only [tick, if_pos hr]
  rw [if_neg (by simp [VAD_SILENCE_MS]), if_pos ⟨hst, hc⟩]

theorem tick_noSpeech (s : VadState) (now : Nat) (rms : ℚ)
    (hsp : s.speechDetected = false) (hr : rms < VAD_SPEECH_THRESHOLD) :
    tick s now rms = .keepGoing s ∨ tick s now rms = .stop .ceiling := by
  have hr' : ¬ VAD_SPEECH_THRESHOLD ≤ rms := not_le.mpr hr
  simp only [tick, if_neg hr']
  rw [if_neg (by simp [hsp])]
  by_cases hcl : s.startTs ≠ 0 ∧ VAD_MAX_MS ≤ now - s.startTs
  · rw [if_pos hcl]
    exact Or.inr rfl
  · rw [if_neg hcl]
    exact Or.inl rfl

theorem run_neverSilence (s : VadState) (samples : List (Nat × ℚ))
    (hsp : s.speechDetected = false)
    (hq : ∀ p ∈ samples, p.2 < VAD_SPEECH_THRESHOLD) :
    ∀ t, run s samples ≠ some (t, StopReason.silence) := by
  induction samples generalizing s with
  | nil => simp [run, runSt]
  | cons p rest ih =>
    obtain ⟨now, rms⟩ := p
    intro t
    have hr : rms < VAD_SPEECH_THRESHOLD := hq (now, rms) (by simp)
    rcases tick_noSpeech s now rms hsp hr with htick | htick
    · rw [run, runSt_cons_keep htick]
      exact ih s hsp (fun q hq2 => hq q (by simp [hq2])) t
    · rw [run, runSt_cons_stop htick]
      simp

/-- C4: in a VAD recording, once speech has been seen (an RMS sample at or
above the 0.02 threshold), the recording is stopped (and transmitted, since
`stopRecording()` sends by default) at the first sampling tick where the
time since the last above-threshold sample reaches the 900ms silence
window — demonstrated exactly at `lastVoice + 900` on a 1ms-cadence
speech-then-silence stream; below-threshold streams never produce a silence
stop; with amplitude continuously at/above threshold a stop occurs exactly
at the 15000ms ceiling; a tick stops via the silence path precisely when
the window condition holds; and any tick at or past the ceiling stops the
recording regardless of speech state. -/
theorem C4_vad_stop_timing :
    (∀ t0 sp : Nat, 1 ≤ t0 → 1 ≤ sp → sp + VAD_SILENCE_MS ≤ VAD_MAX_MS →
      run (initState t0)
          (constSamples VAD_SPEECH_THRESHOLD t0 sp ++
            constSamples 0 (t0 + sp) VAD_SILENCE_MS) =
        some (t0 + sp + VAD_SILENCE_MS, StopReason.silence)) ∧
    (∀ t0 : Nat, 1 ≤ t0 →
      run (initState t0) (constSamples VAD_SPEECH_THRESHOLD t0 VAD_MAX_MS) =
        some (t0 + VAD_MAX_MS, StopReason.ceiling)) ∧
    (∀ (t0 : Nat) (samples : List (Nat × ℚ)),
      (∀ p ∈ samples, p.2 < VAD_SPEECH_THRESHOLD) →
      ∀ t, run (initState t0) samples ≠ some (t, StopReason.silence)) ∧
    (∀ (s : VadState) (now : Nat) (rms : ℚ),
      tick s now rms = .stop .silence ↔
        (rms < VAD_SPEECH_THRESHOLD ∧ s.speechDetected = true ∧
          s.lastVoiceTs ≠ 0 ∧ VAD_SILENCE_MS ≤ now - s.lastVoiceTs)) ∧
    (∀ (s : VadState) (now : Nat) (rms : ℚ) (s1 : VadState),
      s.startTs ≠ 0 → VAD_MAX_MS ≤ now - s.startTs →
      tick s now rms ≠ .keepGoing s1) := by
  refine ⟨?_, ?_, ?_, ?_, ?_⟩
  · intro t0 sp h1 h2 h3
    rw [run, runSt_append_none _ _ _ _
      (runSt_speech (initState t0) t0 sp h2
        (by show t0 + sp < t0 + VAD_MAX_MS
            simp only [VAD_MAX_MS, VAD_SILENCE_MS] at *
            omega))]
    have h900 : VAD_SILENCE_MS = 899 + 1 := by simp [VAD_SILENCE_MS]
    rw [h900, constSamples_succ]
    rw [runSt_append_none _ _ _ _
      (runSt_quiet _ (t0 + sp) 899
        (by show t0 + sp + 899 < (t0 + sp) + VAD_SILENCE_MS
            simp only [VAD_SILENCE_MS]
            omega)
        (by show t0 + sp + 899 < t0 + VAD_MAX_MS
            simp only [VAD_MAX_MS, VAD_SILENCE_MS] at h3 ⊢
            omega))]
    rw [runSt_cons_stop
      (tick_stop_silence _ (t0 + sp + 1 + 899) 0
        (by norm_num [VAD_SPEECH_THRESHOLD])
        rfl
        (by show t0 + sp ≠ 0; omega)
        (by show VAD_SILENCE_MS ≤ t0 + sp + 1 + 899 - (t0 + sp)
            simp only [VAD_SILENCE_MS]
            omega))]
  · intro t0 h1
    have h15000 : VAD_MAX_MS = 14999 + 1 := by simp [VAD_MAX_MS]
    rw [run, h15000, constSamples_succ]
    rw [runSt_append_none _ _ _ _
      (runSt_speech (initState t0) t0 14999 (by omega)
        (by show t0 + 14999 < t0 + VAD_MAX_MS
            simp only [VAD_MAX_MS]
            omega))]
    rw [runSt_cons_stop
      (tick_stop_ceiling_speech _ (t0 + 1 + 14999) VAD_SPEECH_THRESHOLD
        le_rfl
        (by show t0 ≠ 0; omega)
        (by show VAD_MAX_MS ≤ t0 + 1 + 14999 - t0
            simp only [VAD_MAX_MS]
            omega))]
  · intro t0 samples hq t
    exact run_neverSilence (initState t0) samples rfl hq t
  · intro s now rms
    by_cases hr : VAD_SPEECH_THRESHOLD ≤ rms
    · simp only [tick, if_pos hr]
      rw [if_neg (by simp [VAD_SILENCE_MS])]
      have : ¬ rms < VAD_SPEECH_THRESHOLD := not_lt.mpr hr
      by_cases hcl : s.startTs ≠ 0 ∧ VAD_MAX_MS ≤ now - s.startTs
      · rw [if_pos hcl]
        simp [this]
      · rw [if_neg hcl]
        simp [this]
    · have hr' : rms < VAD_SPEECH_THRESHOLD := not_le.mp hr
      simp only [tick, if_neg hr]
      by_cases hsc : s.speechDetected = true ∧ s.lastVoiceTs ≠ 0 ∧
          VAD_SILENCE_MS ≤ now - s.lastVoiceTs
      · rw [if_pos hsc]
        simp [hr', hsc]
      · rw [if_neg hsc]
        by_cases hcl : s.startTs ≠ 0 ∧ VAD_MAX_MS ≤ now - s.startTs
        · rw [if_pos hcl]
          simp only [TickOutcome.stop.injEq, reduceCtorEq, false_iff]
          intro hcon
          exact hsc ⟨hcon.2.1, hcon.2.2.1, hcon.2.2.2⟩
        · rw [if_neg hcl]
          simp only [reduceCtorEq, false_iff]
          intro hcon
          exact hsc ⟨hcon.2.1, hcon.2.2.1, hcon.2.2.2⟩
  · intro s now rms s1 hst hc
    by_cases hr : VAD_SPEECH_THRESHOLD ≤ rms
    · simp only [tick, if_pos hr]
      rw [if_neg (by simp [VAD_SILENCE_MS]), if_pos ⟨hst, hc⟩]
      simp
    · simp only [tick, if_neg hr]
      by_cases hsc : s.speechDetected = true ∧ s.lastVoiceTs ≠ 0 ∧
          VAD_SILENCE_MS ≤ now - s.lastVoiceTs
      · rw [if_pos hsc]
        simp
      · rw [if_neg hsc, if_pos ⟨hst, hc⟩]
        simp

theorem zero_lt_threshold : (0 : ℚ) < VAD_SPEECH_THRESHOLD := by
  norm_num [VAD_SPEECH_THRESHOLD]

/-- Witness for C4: 500ms of speech then silence stops at t = 1401ms
(stream start 1ms, so 500 + 900 + 1); continuous speech stops exactly at
the 15001 = 1 + 15000 ceiling; an all-quiet stream yields no silence stop;
a tick past the ceiling never keeps going. -/
theorem C4_vad_stop_timing_witness :
    run (initState 1)
        (constSamples VAD_SPEECH_THRESHOLD 1 500 ++
          constSamples 0 (1 + 500) VAD_SILENCE_MS) =
      some (1 + 500 + VAD_SILENCE_MS, StopReason.silence) ∧
    run (initState 1) (constSamples VAD_SPEECH_THRESHOLD 1 VAD_MAX_MS) =
      some (1 + VAD_MAX_MS, StopReason.ceiling) ∧
    (∀ t, run (initState 1) [(5, 0)] ≠ some (t, StopReason.silence)) ∧
    tick ⟨true, 100, 1⟩ 16000 0 ≠ .keepGoing ⟨true, 100, 1⟩ := by
  have h := C4_vad_stop_timing
  refine ⟨h.1 1 500 (by decide) (by decide) (by decide),
          h.2.1 1 (by decide),
          fun t => h.2.2.1 1 [(5, 0)] ?_ t,
          h.2.2.2.2 ⟨true, 100, 1⟩ 16000 0 ⟨true, 100, 1⟩ (by decide)
            (by decide)⟩
  intro p hp
  rw [List.mem_singleton] at hp
  rw [hp]
  exact zero_lt_threshold

end Vad

namespace Ws

/-- The `Required<WsConfig>` of `RavatarWsClient` (defaults
`reconnectAttempts = 3`, `reconnectDelay = 2000`). -/
structure WsConfig where
  reconnectAttempts : Nat
  reconnectDelay : Nat
deriving DecidableEq

/-- The mutable state of a `RavatarWsClient`: whether `this.ws` holds a
socket, the consecutive-reconnect counter, and the `shouldReconnect` flag
(set `false` only by `disconnect`, never set back to `true`). -/
structure ClientState where
  hasWs : Bool
  reconnectCount : Nat
  shouldReconnect : Bool
deriving DecidableEq

/-- State of a client as constructed (`shouldReconnect = true`,
`reconnectCount = 0`, no socket yet). -/
def initClient : ClientState :=
  { hasWs := false, reconnectCount := 0, shouldReconnect := true }

/-- What the `onclose` handler does besides emitting the close-typed
message: either schedule exactly one reconnect after the configured fixed
delay, or notify the close subscribers that no further attempt occurs. -/
inductive CloseOutcome where
  | scheduleReconnect (delayMs : Nat) : CloseOutcome
  | notifyCloseHandlers : CloseOutcome
deriving DecidableEq

/-- Shallow embedding of the `onopen` handler: a successful open resets the
attempt counter. -/
def handleOpen (s : ClientState) : ClientState :=
  { s with reconnectCount := 0, hasWs := true }

/-- Shallow embedding of the `onclose` handler of `connect`: if reconnects
are still allowed and attempts remain, bump the counter and schedule one
reconnect after `reconnectDelay`; otherwise notify close subscribers. -/
def handleClose (cfg : WsConfig) (s : ClientState) :
    ClientState × CloseOutcome :=
  if s.shouldReconnect = true ∧ s.reconnectCount < cfg.reconnectAttempts then
    ({ s with reconnectCount := s.reconnectCount + 1 },
      .scheduleReconnect cfg.reconnectDelay)
  else
    (s, .notifyCloseHandlers)

/-- Shallow embedding of `disconnect`: clear the do-reconnect flag, close
the socket if one is held and release the reference.  The returned `Bool`
records whether `this.ws.close()` was actually invoked — only then does the
underlying transport later deliver a close event (one close-notification
cycle). -/
def disconnect (s : ClientState) : ClientState × Bool :=
  ({ s with shouldReconnect := false, hasWs := false }, s.hasWs)

/-- Events the underlying transport can deliver to the client's handlers,
plus a caller-initiated disconnect. -/
inductive WsEvent where
  | opened : WsEvent
  | closed : WsEvent
  | disconnected : WsEvent
deriving DecidableEq

/-- One step of the client state machine; a `closed` event also produces
the `onclose` outcome. -/
def step (cfg : WsConfig) (s : ClientState) :
    WsEvent → ClientState × Option CloseOutcome
  | .opened => (handleOpen s, none)
  | .closed => ((handleClose cfg s).1, some (handleClose cfg s).2)
  | .disconnected => ((disconnect s).1, none)

/-- Run a sequence of events, collecting every `onclose` outcome. -/
def runEvents (cfg : WsConfig) (s : ClientState) :
    List WsEvent → ClientState × List CloseOutcome
  | [] => (s, [])
  | e :: rest =>
    let r := step cfg s e
    let r2 := runEvents cfg r.1 rest
    (r2.1, r.2.toList ++ r2.2)

theorem step_preserves_noReconnectFlag (cfg : WsConfig) (s : ClientState)
    (e : WsEvent) (h : s.shouldReconnect = false) :
    (step cfg s e).1.shouldReconnect = false := by
  cases e <;>
    simp [step, handleOpen, handleClose, disconnect, h]

/-- No step ever re-enables reconnection after `disconnect`: every close
outcome of any event sequence from a `shouldReconnect = false` state
notifies close subscribers, never schedules a reconnect. -/
theorem runEvents_no_schedule (cfg : WsConfig) (s : ClientState)
    (evs : List WsEvent) (h : s.shouldReconnect = false) :
    ∀ o ∈ (runEvents cfg s evs).2, o = CloseOutcome.notifyCloseHandlers := by
  induction evs generalizing s with
  | nil => simp [runEvents]
  | cons e rest ih =>
    intro o ho
    simp only [runEvents, List.mem_append] at ho
    rcases ho with ho | ho
    · cases e with
      | opened => simp [step] at ho
      | disconnected => simp [step] at ho
      | closed =>
        simp only [step, Option.toList_some, List.mem_singleton] at ho
        rw [ho, handleClose, if_neg]
        simp [h]
    · exact ih (step cfg s e).1
        (step_preserves_noReconnectFlag cfg s e h) o ho

end Ws

namespace Ws

/-- C9: calling the socket client's `disconnect` twice in a row is
idempotent: the first call closes the held socket (whose single underlying
close event then only notifies close subscribers, scheduling no reconnect);
the second call leaves the state unchanged, invokes no `close()` — hence
produces no second close-notification cycle — and no event sequence after
it ever schedules a reconnect. -/
theorem C9_disconnect_idempotent (cfg : WsConfig) (s : ClientState)
    (h : s.hasWs = true) :
    (disconnect s).2 = true ∧
    handleClose cfg (disconnect s).1 =
      ((disconnect s).1, CloseOutcome.notifyCloseHandlers) ∧
    (disconnect (disconnect s).1).1 = (disconnect s).1 ∧
    (disconnect (disconnect s).1).2 = false ∧
    (∀ (evs : List WsEvent),
      ∀ o ∈ (runEvents cfg (disconnect (disconnect s).1).1 evs).2,
        o = CloseOutcome.notifyCloseHandlers) := by
  refine ⟨h, ?_, rfl, rfl, ?_⟩
  · rw [handleClose, if_neg]
    intro hcon
    simp [disconnect] at hcon
  · intro evs
    exact runEvents_no_schedule cfg _ evs rfl

/-- Witness for C9 on a connected client with one prior reconnect. -/
theorem C9_disconnect_idempotent_witness :
    (disconnect ⟨true, 1, true⟩).2 = true ∧
    handleClose ⟨3, 2000⟩ (disconnect ⟨true, 1, true⟩).1 =
      ((disconnect ⟨true, 1, true⟩).1, CloseOutcome.notifyCloseHandlers) ∧
    (disconnect (disconnect ⟨true, 1, true⟩).1).1 =
      (disconnect ⟨true, 1, true⟩).1 ∧
    (disconnect (disconnect ⟨true, 1, true⟩).1).2 = false ∧
    (∀ (evs : List WsEvent),
      ∀ o ∈ (runEvents ⟨3, 2000⟩
          (disconnect (disconnect ⟨true, 1, true⟩).1).1 evs).2,
        o = CloseOutcome.notifyCloseHandlers) :=
  C9_disconnect_idempotent ⟨3, 2000⟩ ⟨true, 1, true⟩ rfl

end Ws

namespace Frames

/-- An inbound socket frame as inspected by `handleIncomingMessage`:
every field is read defensively (`typeof ... === "string"`), so all are
optional strings here. -/
structure Frame where
  type : Option String
  direction : Option String
  content : Option String
  message : Option String
  answer : Option String
  fileUrl : Option String
  file_base64_data : Option String
  audio_base64 : Option String
deriving DecidableEq

/-- Observable UI effects of routing one inbound frame: appending an
assistant turn, appending a system notice, or requesting audio playback. -/
inductive UiEffect where
  | assistantTurn (content : String) (fileUrl : Option String) : UiEffect
  | systemNotice (content : String) : UiEffect
  | play (src : String) : UiEffect
deriving DecidableEq

/-- `answerText`: `answer` if it is a string, else `content`. -/
def answerTextOf (f : Frame) : Option String :=
  match f.answer with
  | some s => some s
  | none => f.content

/-- `systemText`: `content` if it is a string, else `message`. -/
def systemTextOf (f : Frame) : Option String :=
  match f.content with
  | some s => some s
  | none => f.message

/-- `audioBase64`: `file_base64_data` if a string, else `audio_base64`. -/
def audioBase64Of (f : Frame) : Option String :=
  match f.file_base64_data with
  | some s => some s
  | none => f.audio_base64

/-- `audioSrc`: truthy base64 audio is normalized to a `data:` reference
unless it already is one; otherwise fall back to `fileUrl`. -/
def audioSrcOf (f : Frame) : Option String :=
  match audioBase64Of f with
  | some s =>
    if s != "" then
      some (if s.startsWith "data:" then s
        else "data:audio/webm;base64," ++ s)
    else f.fileUrl
  | none => f.fileUrl

/-- The `if (audioSrc) void playAudio(audioSrc)` call sites: request
playback only for a truthy source. -/
def playEffects : Option String → List UiEffect
  | some s => if s != "" then [.play s] else []
  | none => []

/-- The `if (text) addSystemMessage(text)` call sites. -/
def noticeIfTruthy : Option String → List UiEffect
  | some s => if s != "" then [.systemNotice s] else []
  | none => []

/-- Shallow embedding of `handleIncomingMessage`: route by the `type` /
`direction` discriminant — system, then incoming (which returns before any
playback when `answerText` is falsy), then event, then the generic
fallback (identical in shape to the event branch). -/
def handleIncomingMessage (f : Frame) : List UiEffect :=
  if f.type == some "system" || f.direction == some "system" then
    noticeIfTruthy (systemTextOf f)
  else if f.type == some "incoming" || f.direction == some "incoming" then
    match answerTextOf f with
    | some s =>
      if s != "" then
        .assistantTurn s f.fileUrl :: playEffects (audioSrcOf f)
      else []
    | none => []
  else if f.type == some "event" || f.direction == some "event" then
    noticeIfTruthy (answerTextOf f) ++ playEffects (audioSrcOf f)
  else
    noticeIfTruthy (answerTextOf f) ++ playEffects (audioSrcOf f)

/-- Shallow embedding of `playAudio`: best-effort playback whose failure is
reported as a system notice, never an exception (`playOk` is the eventual
outcome of `audio.play()`). -/
def playAudioRun (src : String) (playOk : Bool) (errMsg : String) :
    List UiEffect :=
  if src == "" then []
  else if playOk then []
  else [.systemNotice ("🔇 Couldn't autoplay audio: " ++ errMsg)]

/-- Does an effect append an assistant turn? -/
def isAssistantTurn : UiEffect → Bool
  | .assistantTurn _ _ => true
  | _ => false

/-- C6 fails on the code: a frame discriminated as "event" does not behave
like "incoming" — an event frame carrying the non-empty answer text "hi"
appends a system notice and no assistant turn, whereas the same payload
discriminated as "incoming" appends an assistant turn; moreover an
"incoming" frame carrying only inline audio (no answer text) is dropped
entirely, so its audio is never played. -/
theorem C6_frame_routing_counterexample :
    handleIncomingMessage
        { type := some "event", direction := none, content := none,
          message := none, answer := some "hi", fileUrl := none,
          file_base64_data := none, audio_base64 := none } =
      [UiEffect.systemNotice "hi"] ∧
    (handleIncomingMessage
        { type := some "event", direction := none, content := none,
          message := none, answer := some "hi", fileUrl := none,
          file_base64_data := none, audio_base64 := none }).all
      (fun e => !isAssistantTurn e) = true ∧
    handleIncomingMessage
        { type := some "incoming", direction := none, content := none,
          message := none, answer := some "hi", fileUrl := none,
          file_base64_data := none, audio_base64 := none } =
      [UiEffect.assistantTurn "hi" none] ∧
    handleIncomingMessage
        { type := some "incoming", direction := none, content := none,
          message := none, answer := none, fileUrl := none,
          file_base64_data := some "QUJD", audio_base64 := none } =
      [] := by
  decide

/-- C6 (amended): an "incoming"-discriminated frame requires non-empty
answer text: with it, exactly one assistant turn (keeping the frame's
`fileUrl`) is appended and best-effort playback of the normalized audio
source is requested; without it the frame produces no effect at all — in
particular its audio is not played.  A frame that is neither system- nor
incoming-discriminated (the "event" branch and the generic fallback alike)
posts its text, when non-empty, as a system notice — not an assistant
turn — and requests playback regardless of text presence.  Truthy inline
base64 audio is normalized to a `data:` reference unless it already is
one, and playback failure yields a non-fatal system notice while success
yields nothing. -/
theorem C6_frame_routing_amended :
    (∀ f : Frame,
      (f.type == some "system" || f.direction == some "system") = false →
      (f.type == some "incoming" || f.direction == some "incoming") = true →
      truthy (answerTextOf f) = false →
      handleIncomingMessage f = []) ∧
    (∀ (f : Frame) (s : String),
      (f.type == some "system" || f.direction == some "system") = false →
      (f.type == some "incoming" || f.direction == some "incoming") = true →
      answerTextOf f = some s → s ≠ "" →
      handleIncomingMessage f =
        UiEffect.assistantTurn s f.fileUrl :: playEffects (audioSrcOf f)) ∧
    (∀ f : Frame,
      (f.type == some "system" || f.direction == some "system") = false →
      (f.type == some "incoming" || f.direction == some "incoming") = false →
      handleIncomingMessage f =
        noticeIfTruthy (answerTextOf f) ++ playEffects (audioSrcOf f)) ∧
    (∀ (f : Frame) (s : String),
      audioBase64Of f = some s → s ≠ "" →
      audioSrcOf f = some (if s.startsWith "data:" then s
        else "data:audio/webm;base64," ++ s)) ∧
    (∀ (src errMsg : String), src ≠ "" →
      playAudioRun src false errMsg =
        [UiEffect.systemNotice ("🔇 Couldn't autoplay audio: " ++ errMsg)] ∧
      playAudioRun src true errMsg = []) := by
  refine ⟨?_, ?_, ?_, ?_, ?_⟩
  · intro f h1 h2 h3
    simp only [handleIncomingMessage, h1, h2]
    cases ha : answerTextOf f with
    | none => simp
    | some s =>
      rw [ha] at h3
      simp only [truthy] at h3
      simp [h3]
  · intro f s h1 h2 ha hs
    have hb : (s != "") = true := bne_iff_ne.mpr hs
    simp only [handleIncomingMessage, h1, h2, ha]
    simp [hb]
  · intro f h1 h2
    simp only [handleIncomingMessage, h1, h2]
    simp only [Bool.false_eq_true, if_false]
    split <;> rfl
  · intro f s ha hs
    have hb : (s != "") = true := bne_iff_ne.mpr hs
    simp only [audioSrcOf, ha]
    simp [hb]
  · intro src errMsg h
    have hb : (src == "") = false := beq_eq_false_iff_ne.mpr h
    constructor <;> simp [playAudioRun, hb]

/-- Witness for the amended C6 on concrete frames: an incoming frame with
only audio is dropped; an incoming frame with text "hi" appends the
assistant turn plus its playback request; an event frame posts a system
notice plus playback; bare base64 "QUJD" is normalized to a data
reference; playback failure/success yield a notice / nothing. -/
theorem C6_frame_routing_amended_witness :
    handleIncomingMessage
        { type := some "incoming", direction := none, content := none,
          message := none, answer := none, fileUrl := none,
          file_base64_data := some "QUJD", audio_base64 := none } = [] ∧
    handleIncomingMessage
        { type := some "incoming", direction := none, content := none,
          message := none, answer := some "hi", fileUrl := none,
          file_base64_data := none, audio_base64 := none } =
      UiEffect.assistantTurn "hi" none ::
        playEffects (audioSrcOf
          { type := some "incoming", direction := none, content := none,
            message := none, answer := some "hi", fileUrl := none,
            file_base64_data := none, audio_base64 := none }) ∧
    handleIncomingMessage
        { type := some "event", direction := none, content := none,
          message := none, answer := some "hi", fileUrl := none,
          file_base64_data := some "QUJD", audio_base64 := none } =
      noticeIfTruthy (answerTextOf
          { type := some "event", direction := none, content := none,
            message := none, answer := some "hi", fileUrl := none,
            file_base64_data := some "QUJD", audio_base64 := none }) ++
        playEffects (audioSrcOf
          { type := some "event", direction := none, content := none,
            message := none, answer := some "hi", fileUrl := none,
            file_base64_data := some "QUJD", audio_base64 := none }) ∧
    audioSrcOf
        { type := some "event", direction := none, content := none,
          message := none, answer := some "hi", fileUrl := none,
          file_base64_data := some "QUJD", audio_base64 := none } =
      some (if "QUJD".startsWith "data:" then "QUJD"
        else "data:audio/webm;base64," ++ "QUJD") ∧
    (playAudioRun "data:audio/webm;base64,QUJD" false "blocked" =
        [UiEffect.systemNotice ("🔇 Couldn't autoplay audio: " ++ "blocked")] ∧
      playAudioRun "data:audio/webm;base64,QUJD" true "blocked" = []) := by
  have h := C6_frame_routing_amended
  exact ⟨h.1 _ (by decide) (by decide) (by decide),
    h.2.1 _ "hi" (by decide) (by decide) rfl (by decide),
    h.2.2.1 _ (by decide) (by decide),
    h.2.2.2.1 _ "QUJD" rfl (by decide),
    h.2.2.2.2 "data:audio/webm;base64,QUJD" "blocked" (by decide)⟩

end Frames

namespace Live

inductive LiveStatus where
  | idle : LiveStatus
  | starting : LiveStatus
  | live : LiveStatus
  | stopping : LiveStatus
  | error : LiveStatus
deriving DecidableEq

inductive PixelStatus where
  | idle : PixelStatus
  | loading : PixelStatus
  | loaded : PixelStatus
  | error : PixelStatus
deriving DecidableEq

/-- The live-session state owned by the chat panel, restricted to what
`handleStopLive` reads and writes. -/
structure LiveState where
  liveStatus : LiveStatus
  licenseId : String
  streamingUrl : String
  pixelStatus : PixelStatus
  isLiveMode : Bool
  isRecording : Bool
  notices : List String
deriving DecidableEq

/-- Shallow embedding of `handleStopLive`.  `remoteOk` is the eventual
outcome of the awaited `api.endLiveSession` call.  Returns the new state,
whether the remote teardown was attempted (`licenseId` truthy), and whether
the awaited call rejected (the rejection escapes only after the `finally`
block has run).  The `try` block's recorder teardown swallows its own
exceptions and clears the recording flag; the `finally` block
unconditionally clears the license id, streaming address, pixel status and
live flag, resets the phase to idle and posts the success notice. -/
def handleStopLive (st : LiveState) (remoteOk : Bool) :
    LiveState × Bool × Bool :=
  let st1 := { st with liveStatus := LiveStatus.stopping,
                       notices := st.notices ++ ["Stopping Live session..."] }
  let st2 := { st1 with isRecording := false }
  let attempted := st1.licenseId != ""
  let failed := attempted && !remoteOk
  let st3 := { st2 with licenseId := "", streamingUrl := "",
                        pixelStatus := PixelStatus.idle, isLiveMode := false,
                        liveStatus := LiveStatus.idle,
                        notices := st2.notices ++ ["✅ Live session ended"] }
  (st3, attempted, failed)

/-- C7: live-session stop attempts the best-effort remote teardown exactly
when a license id is held, and — regardless of whether that call succeeds
or fails — unconditionally clears the license id, the streaming address and
the live flag, resets the lifecycle phase (and pixel status) to idle, and
posts the success notice: the resulting local state does not depend on the
remote call's outcome at all. -/
theorem C7_stop_live_unconditional_reset (st : LiveState) (remoteOk : Bool) :
    (handleStopLive st remoteOk).1.licenseId = "" ∧
    (handleStopLive st remoteOk).1.streamingUrl = "" ∧
    (handleStopLive st remoteOk).1.isLiveMode = false ∧
    (handleStopLive st remoteOk).1.liveStatus = LiveStatus.idle ∧
    (handleStopLive st remoteOk).1.pixelStatus = PixelStatus.idle ∧
    (handleStopLive st remoteOk).1.notices =
      st.notices ++ ["Stopping Live session...", "✅ Live session ended"] ∧
    ((handleStopLive st remoteOk).2.1 = true ↔ st.licenseId ≠ "") ∧
    (handleStopLive st true).1 = (handleStopLive st false).1 := by
  refine ⟨rfl, rfl, rfl, rfl, rfl, by simp [handleStopLive], ?_, rfl⟩
  simp [handleStopLive]

end Live

namespace Ptt

/-- `MIN_PTT_HOLD_MS`. -/
def MIN_PTT_HOLD_MS : Nat := 200

/-- The state read and written by the push-to-talk handlers, with two ghost
counters for started recordings and stop-with-transmit operations. -/
structure PttState where
  wsConnected : Bool
  isLiveMode : Bool
  licenseId : String
  isRecording : Bool
  pttTimerPending : Bool
  pttDidStart : Bool
  startsCount : Nat
  stopSendCount : Nat
deriving DecidableEq

/-- Shallow embedding of `startRecording` restricted to its gating logic
(microphone acquisition assumed to succeed): no-op unless connected, live
with a license, and not already recording. -/
def startRecordingPtt (s : PttState) : PttState :=
  if s.wsConnected = false then s
  else if s.isLiveMode = false ∨ s.licenseId = "" then s
  else if s.isRecording = true then s
  else { s with isRecording := true, startsCount := s.startsCount + 1 }

/-- Shallow embedding of `stopRecording` with `send = true`: transmit and
stop only while a recording is active. -/
def stopRecordingSend (s : PttState) : PttState :=
  if s.isRecording = true then
    { s with isRecording := false, stopSendCount := s.stopSendCount + 1 }
  else s

/-- Shallow embedding of `startPushToTalk`: same guards as the source,
then clear any pending timer, reset the did-start flag and arm a fresh
200ms timer. -/
def startPushToTalk (s : PttState) : PttState :=
  if s.wsConnected = false then s
  else if s.isLiveMode = false ∨ s.licenseId = "" then s
  else if s.isRecording = true then s
  else { s with pttTimerPending := true, pttDidStart := false }

/-- The armed timer's callback (runs only if the timer was not cancelled):
clear the timer slot, mark did-start and start the push-to-talk
recording. -/
def pttTimerFire (s : PttState) : PttState :=
  if s.pttTimerPending = true then
    startRecordingPtt { s with pttTimerPending := false, pttDidStart := true }
  else s

/-- Shallow embedding of `endPushToTalk`: a release with the timer still
pending is a short tap — cancel the timer and do nothing; otherwise a
release after the timer fired stops-and-transmits the active recording;
the did-start flag is cleared on every path. -/
def endPushToTalk (s : PttState) : PttState :=
  if s.pttTimerPending = true then
    { s with pttTimerPending := false, pttDidStart := false }
  else if s.pttDidStart = true ∧ s.isRecording = true then
    { stopRecordingSend s with pttDidStart := false }
  else
    { s with pttDidStart := false }

/-- A press-and-hold of `holdMs` milliseconds: press, then (only if the
hold outlasts the 200ms timer) the timer fires, then release. -/
def pressRelease (s : PttState) (holdMs : Nat) : PttState :=
  let s1 := startPushToTalk s
  let s2 := if MIN_PTT_HOLD_MS ≤ holdMs then pttTimerFire s1 else s1
  endPushToTalk s2

/-- C8: from a ready state (connected, live with a license, not recording,
no pending timer), a press released before the 200ms minimum hold never
starts a recording (the pending timer is cancelled and nothing is recorded
or transmitted), while a press held past 200ms starts exactly one
recording and its release performs exactly one stop-with-transmit, ending
with no active recording. -/
theorem C8_push_to_talk (s : PttState) (holdMs : Nat)
    (hws : s.wsConnected = true) (hlive : s.isLiveMode = true)
    (hlic : s.licenseId ≠ "") (hrec : s.isRecording = false)
    (htimer : s.pttTimerPending = false) :
    (holdMs < MIN_PTT_HOLD_MS →
      (pressRelease s holdMs).startsCount = s.startsCount ∧
      (pressRelease s holdMs).stopSendCount = s.stopSendCount ∧
      (pressRelease s holdMs).isRecording = false ∧
      (pressRelease s holdMs).pttTimerPending = false) ∧
    (MIN_PTT_HOLD_MS < holdMs →
      (pressRelease s holdMs).startsCount = s.startsCount + 1 ∧
      (pressRelease s holdMs).stopSendCount = s.stopSendCount + 1 ∧
      (pressRelease s holdMs).isRecording = false) := by
  constructor
  · intro h
    have hno : ¬ MIN_PTT_HOLD_MS ≤ holdMs := by omega
    simp [pressRelease, startPushToTalk, endPushToTalk, hno, hws, hlive,
      hlic, hrec, htimer]
  · intro h
    have hyes : MIN_PTT_HOLD_MS ≤ holdMs := by omega
    simp [pressRelease, startPushToTalk, pttTimerFire, startRecordingPtt,
      endPushToTalk, stopRecordingSend, hyes, hws, hlive, hlic, hrec, htimer]

/-- Witness for C8: a 150ms tap records nothing; a 250ms hold yields
exactly one started recording and one stop-with-transmit. -/
theorem C8_push_to_talk_witness :
    ((pressRelease ⟨true, true, "lic", false, false, false, 0, 0⟩
        150).startsCount = 0 ∧
      (pressRelease ⟨true, true, "lic", false, false, false, 0, 0⟩
        150).stopSendCount = 0 ∧
      (pressRelease ⟨true, true, "lic", false, false, false, 0, 0⟩
        150).isRecording = false ∧
      (pressRelease ⟨true, true, "lic", false, false, false, 0, 0⟩
        150).pttTimerPending = false) ∧
    ((pressRelease ⟨true, true, "lic", false, false, false, 0, 0⟩
        250).startsCount = 0 + 1 ∧
      (pressRelease ⟨true, true, "lic", false, false, false, 0, 0⟩
        250).stopSendCount = 0 + 1 ∧
      (pressRelease ⟨true, true, "lic", false, false, false, 0, 0⟩
        250).isRecording = false) :=
  ⟨(C8_push_to_talk ⟨true, true, "lic", false, false, false, 0, 0⟩ 150
      rfl rfl (by decide) rfl rfl).1 (by decide),
    (C8_push_to_talk ⟨true, true, "lic", false, false, false, 0, 0⟩ 250
      rfl rfl (by decide) rfl rfl).2 (by decide)⟩

end Ptt

namespace Api

/-- The optional credential fields of a `POST /jwt` success body. -/
structure JwtFields where
  jwt : Option String
  token : Option String
deriving DecidableEq

/-- Shallow embedding of `RavatarApi.getJWT`: on a non-ok response fail
and leave the held credential untouched; on a success body pick
`data.jwt || data.token` (JS truthiness: an empty string falls through),
fail if the pick is falsy, otherwise store it as the held credential and
return it.  First component of the result is the held credential after the
call. -/
def getJWT (held : Option String) (resOk : Bool) (body : JwtFields) :
    Option String × Except String String :=
  if resOk = false then
    (held, .error "JWT request failed")
  else
    let token := if truthy body.jwt then body.jwt else body.token
    if truthy token = false then
      (held, .error "JWT token not found in response")
    else
      (token, .ok (token.getD ""))

/-- C10 fails on the code: with both fields present but `jwt` the empty
string, `data.jwt || data.token` falls through to `token` — the legacy
`jwt` value does not take precedence merely by being present.  Concretely,
for the body with `jwt := ""` and `token := "tok"`, `getJWT` stores and
returns `"tok"`, not `""`. -/
theorem C10_getJWT_counterexample :
    getJWT none true { jwt := some "", token := some "tok" } =
      (some "tok", Except.ok "tok") ∧
    ({ jwt := some "", token := some "tok" } : JwtFields).jwt ≠ none ∧
    ({ jwt := some "", token := some "tok" } : JwtFields).token ≠ none ∧
    (Except.ok "tok" : Except String String) ≠ Except.ok "" := by
  decide

/-- C10 (amended): `getJWT` extracts the credential from the legacy `jwt`
field when that value is non-empty (taking precedence over `token`), else
from a non-empty `token` field — an empty-string field is treated as
absent; the extracted value is stored as the held credential and returned;
when neither field holds a non-empty string, or the response itself is not
ok, the operation fails with an error and the held credential is left
unchanged. -/
theorem C10_getJWT_amended :
    (∀ (held : Option String) (body : JwtFields) (s : String),
      body.jwt = some s → s ≠ "" →
      getJWT held true body = (some s, Except.ok s)) ∧
    (∀ (held : Option String) (body : JwtFields) (s : String),
      truthy body.jwt = false → body.token = some s → s ≠ "" →
      getJWT held true body = (some s, Except.ok s)) ∧
    (∀ (held : Option String) (body : JwtFields),
      truthy body.jwt = false → truthy body.token = false →
      getJWT held true body =
        (held, Except.error "JWT token not found in response")) ∧
    (∀ (held : Option String) (body : JwtFields),
      getJWT held false body = (held, Except.error "JWT request failed")) := by
  refine ⟨?_, ?_, ?_, ?_⟩
  · intro held body s hjwt hs
    have hb : truthy body.jwt = true := by simp [truthy, hjwt, hs]
    simp [getJWT, hb, hjwt, truthy, hs]
  · intro held body s hjwt htok hs
    have hb : truthy (some s) = true := by simp [truthy, hs]
    simp [getJWT, hjwt, htok, hb]
  · intro held body hjwt htok
    simp [getJWT, hjwt, htok]
  · intro held body
    simp [getJWT]

/-- Witness for the amended C10: a non-empty legacy `jwt` wins over a
present `token`; an empty `jwt` falls back to `token`; two empty fields
fail leaving the held credential (`some "old"`) unchanged; a failed
response leaves it unchanged too. -/
theorem C10_getJWT_amended_witness :
    getJWT none true { jwt := some "legacy", token := some "tok" } =
      (some "legacy", Except.ok "legacy") ∧
    getJWT none true { jwt := some "", token := some "tok" } =
      (some "tok", Except.ok "tok") ∧
    getJWT (some "old") true { jwt := some "", token := none } =
      (some "old", Except.error "JWT token not found in response") ∧
    getJWT (some "old") false { jwt := some "x", token := none } =
      (some "old", Except.error "JWT request failed") := by
  have h := C10_getJWT_amended
  exact ⟨h.1 none { jwt := some "legacy", token := some "tok" } "legacy" rfl
      (by decide),
    h.2.1 none { jwt := some "", token := some "tok" } "tok" (by decide) rfl
      (by decide),
    h.2.2.1 (some "old") { jwt := some "", token := none } (by decide)
      (by decide),
    h.2.2.2 (some "old") { jwt := some "x", token := none }⟩

end Api

namespace Ws

/-- What `this.ws?.readyState === WebSocket.OPEN` can observe: no socket
reference at all, a referenced socket that is not OPEN (connecting or
already closed), or an OPEN socket. -/
inductive WsRef where
  | nullRef : WsRef
  | notOpen : WsRef
  | openRef : WsRef
deriving DecidableEq

/-- The client state including the reconnect timers armed by `onclose`.
The source never stores the handle of `setTimeout(() => this.connect(),
delay)`, so `disconnect()` has nothing to cancel: `pendingTimers` counts
armed, not-yet-fired reconnect callbacks.  `socketsCreated` is a ghost
counter of `new WebSocket(url)` constructions. -/
structure TimedState where
  ws : WsRef
  reconnectCount : Nat
  shouldReconnect : Bool
  pendingTimers : Nat
  socketsCreated : Nat
deriving DecidableEq

/-- Shallow embedding of `connect()`: a no-op when the current socket is
already OPEN; otherwise it constructs a fresh WebSocket and installs the
handlers.  Note it does not consult `shouldReconnect`. -/
def connectT (s : TimedState) : TimedState :=
  if s.ws = WsRef.openRef then s
  else { s with ws := WsRef.notOpen,
                socketsCreated := s.socketsCreated + 1 }

/-- `onopen` on the timed state: the socket is OPEN and the attempt
counter resets. -/
def handleOpenT (s : TimedState) : TimedState :=
  { s with ws := WsRef.openRef, reconnectCount := 0 }

/-- `onclose` on the timed state: the closed socket is no longer OPEN;
if reconnects are allowed and attempts remain, bump the counter and arm
one reconnect timer for `reconnectDelay` later; otherwise notify the
close subscribers. -/
def handleCloseT (cfg : WsConfig) (s : TimedState) :
    TimedState × CloseOutcome :=
  let wsAfter := if s.ws = WsRef.openRef then WsRef.notOpen else s.ws
  if s.shouldReconnect = true ∧ s.reconnectCount < cfg.reconnectAttempts then
    ({ s with ws := wsAfter, reconnectCount := s.reconnectCount + 1,
              pendingTimers := s.pendingTimers + 1 },
      .scheduleReconnect cfg.reconnectDelay)
  else
    ({ s with ws := wsAfter }, .notifyCloseHandlers)

/-- An armed reconnect timer fires: its callback is `this.connect()`,
unconditionally — the source has no cancelled-check and `connect()` does
not consult `shouldReconnect`. -/
def timerFireT (s : TimedState) : TimedState :=
  if s.pendingTimers = 0 then s
  else connectT { s with pendingTimers := s.pendingTimers - 1 }

/-- Shallow embedding of `disconnect()` on the timed state: clear the
do-reconnect flag, close and release the socket if one is held (the `Bool`
records whether `close()` was invoked).  Armed reconnect timers are left
untouched — the source holds no handle to clear them. -/
def disconnectT (s : TimedState) : TimedState × Bool :=
  ({ s with shouldReconnect := false, ws := WsRef.nullRef },
    s.ws != WsRef.nullRef)

/-- Events driving the timed client machine. -/
inductive TEvent where
  | opened : TEvent
  | closed : TEvent
  | timerFired : TEvent
  | disconnected : TEvent
deriving DecidableEq

/-- One step of the timed machine; a `closed` event also yields the
`onclose` outcome. -/
def stepT (cfg : WsConfig) (s : TimedState) :
    TEvent → TimedState × Option CloseOutcome
  | .opened => (handleOpenT s, none)
  | .closed => ((handleCloseT cfg s).1, some (handleCloseT cfg s).2)
  | .timerFired => (timerFireT s, none)
  | .disconnected => ((disconnectT s).1, none)

/-- Run a sequence of events on the timed machine, collecting every
`onclose` outcome. -/
def runT (cfg : WsConfig) (s : TimedState) :
    List TEvent → TimedState × List CloseOutcome
  | [] => (s, [])
  | e :: rest =>
    let r := stepT cfg s e
    let r2 := runT cfg r.1 rest
    (r2.1, r.2.toList ++ r2.2)

theorem stepT_flagFalse (cfg : WsConfig) (s : TimedState) (e : TEvent)
    (h : s.shouldReconnect = false) :
    (stepT cfg s e).1.shouldReconnect = false ∧
    (stepT cfg s e).1.pendingTimers ≤ s.pendingTimers ∧
    ((stepT cfg s e).2 = none ∨
      (stepT cfg s e).2 = some CloseOutcome.notifyCloseHandlers) := by
  cases e with
  | opened => simp [stepT, handleOpenT, h]
  | closed =>
    have hcl : handleCloseT cfg s =
        ({ s with ws := if s.ws = WsRef.openRef then WsRef.notOpen
            else s.ws }, CloseOutcome.notifyCloseHandlers) := by
      rw [handleCloseT, if_neg]
      intro hcon
      rw [h] at hcon
      simp at hcon
    simp [stepT, hcl, h]
  | timerFired =>
    by_cases hp : s.pendingTimers = 0
    · simp [stepT, timerFireT, hp, h]
    · simp only [stepT, timerFireT, if_neg hp, connectT]
      split <;> simp [h]
  | disconnected => simp [stepT, disconnectT]

/-- After the do-reconnect flag is cleared, no event sequence ever arms a
new reconnect timer (the pending-timer count never increases) and every
close outcome only notifies. -/
theorem runT_no_new_schedule (cfg : WsConfig) (s : TimedState)
    (evs : List TEvent) (h : s.shouldReconnect = false) :
    (∀ o ∈ (runT cfg s evs).2, o = CloseOutcome.notifyCloseHandlers) ∧
    (runT cfg s evs).1.pendingTimers ≤ s.pendingTimers := by
  induction evs generalizing s with
  | nil => simp [runT]
  | cons e rest ih =>
    obtain ⟨h1, h2, h3⟩ := stepT_flagFalse cfg s e h
    obtain ⟨ih1, ih2⟩ := ih (stepT cfg s e).1 h1
    refine ⟨?_, ?_⟩
    swap
    · simp only [runT]
      omega
    intro o ho
    simp only [runT, List.mem_append] at ho
    rcases ho with ho | ho
    · rcases h3 with h3 | h3 <;> rw [h3] at ho <;> simp at ho
      exact ho
    · exact ih1 o ho

/-- Over a run of unexpected closes only, a state already at the attempt
ceiling never arms another timer and only notifies. -/
theorem closesT_no_schedule (cfg : WsConfig) (s : TimedState)
    (h : cfg.reconnectAttempts ≤ s.reconnectCount) (evs : List TEvent)
    (hevs : ∀ e ∈ evs, e = TEvent.closed) :
    (∀ o ∈ (runT cfg s evs).2, o = CloseOutcome.notifyCloseHandlers) ∧
    (runT cfg s evs).1.pendingTimers = s.pendingTimers := by
  induction evs generalizing s with
  | nil => simp [runT]
  | cons e rest ih =>
    have he : e = TEvent.closed := hevs e (by simp)
    subst he
    have hcl : handleCloseT cfg s =
        ({ s with ws := if s.ws = WsRef.openRef then WsRef.notOpen
            else s.ws }, CloseOutcome.notifyCloseHandlers) := by
      rw [handleCloseT, if_neg]
      intro hcon
      omega
    obtain ⟨ih1, ih2⟩ := ih ({ s with ws := if s.ws = WsRef.openRef
        then WsRef.notOpen else s.ws }) h
      (fun e2 he2 => hevs e2 (by simp [he2]))
    constructor
    · intro o ho
      simp only [runT, stepT, hcl, Option.toList_some, List.mem_append,
        List.mem_singleton] at ho
      rcases ho with ho | ho
      · exact ho
      · exact ih1 o ho
    · simp only [runT, stepT, hcl]
      exact ih2

end Ws

namespace Ws

/-- C5 fails on the code: the source stores no handle for the
`setTimeout(() => this.connect(), delay)` armed by `onclose`, `disconnect()`
therefore cannot cancel it, and `connect()` never consults
`shouldReconnect`.  Concretely, from a connected client (flag set, counter
0, one socket constructed): an unexpected close schedules a reconnect; an
explicit disconnect then clears the flag and nulls the socket but leaves
the armed timer; the timer fires anyway and constructs a second socket,
and when that socket opens the client is connected again — an automatic
reconnection after the explicit disconnect, contradicting the claim. -/
theorem C5_ws_reconnect_policy_counterexample :
    (handleCloseT ⟨3, 2000⟩ ⟨WsRef.openRef, 0, true, 0, 1⟩).2 =
      CloseOutcome.scheduleReconnect 2000 ∧
    (handleCloseT ⟨3, 2000⟩ ⟨WsRef.openRef, 0, true, 0, 1⟩).1 =
      ⟨WsRef.notOpen, 1, true, 1, 1⟩ ∧
    (disconnectT
        (handleCloseT ⟨3, 2000⟩ ⟨WsRef.openRef, 0, true, 0, 1⟩).1).1 =
      ⟨WsRef.nullRef, 1, false, 1, 1⟩ ∧
    timerFireT
        (disconnectT
          (handleCloseT ⟨3, 2000⟩ ⟨WsRef.openRef, 0, true, 0, 1⟩).1).1 =
      ⟨WsRef.notOpen, 1, false, 0, 2⟩ ∧
    (handleOpenT
        (timerFireT
          (disconnectT
            (handleCloseT ⟨3, 2000⟩ ⟨WsRef.openRef, 0, true, 0, 1⟩).1).1)).ws =
      WsRef.openRef := by
  decide

/-- C5 (amended): an unexpected close while reconnection is allowed and
the attempt counter is below the configured maximum bumps the counter and
arms exactly one reconnect timer for the fixed configured delay; once the
counter has reached the maximum, closes only notify the close subscribers
and arm nothing, over any run of further closes; an explicit disconnect
clears the do-not-reconnect flag — which is never set back — so no new
reconnect is ever scheduled afterwards; but the disconnect does not cancel
an already-armed reconnect timer: that timer still fires, and since
`connect()` does not consult the flag it constructs a fresh socket, so an
automatic reconnection can still occur after an explicit disconnect; the
attempt counter is reset to zero on every successful open. -/
theorem C5_ws_reconnect_policy_amended :
    (∀ (cfg : WsConfig) (s : TimedState),
      s.shouldReconnect = true → s.reconnectCount < cfg.reconnectAttempts →
      handleCloseT cfg s =
        ({ s with
            ws := (if s.ws = WsRef.openRef then WsRef.notOpen else s.ws),
            reconnectCount := s.reconnectCount + 1,
            pendingTimers := s.pendingTimers + 1 },
          CloseOutcome.scheduleReconnect cfg.reconnectDelay)) ∧
    (∀ (cfg : WsConfig) (s : TimedState),
      cfg.reconnectAttempts ≤ s.reconnectCount →
      handleCloseT cfg s =
        ({ s with
            ws := (if s.ws = WsRef.openRef then WsRef.notOpen else s.ws) },
          CloseOutcome.notifyCloseHandlers)) ∧
    (∀ (cfg : WsConfig) (s : TimedState) (evs : List TEvent),
      cfg.reconnectAttempts ≤ s.reconnectCount →
      (∀ e ∈ evs, e = TEvent.closed) →
      (∀ o ∈ (runT cfg s evs).2, o = CloseOutcome.notifyCloseHandlers) ∧
      (runT cfg s evs).1.pendingTimers = s.pendingTimers) ∧
    (∀ s : TimedState,
      (disconnectT s).1.shouldReconnect = false ∧
      (disconnectT s).1.pendingTimers = s.pendingTimers) ∧
    (∀ (cfg : WsConfig) (s : TimedState) (evs : List TEvent),
      s.shouldReconnect = false →
      (∀ o ∈ (runT cfg s evs).2, o = CloseOutcome.notifyCloseHandlers) ∧
      (runT cfg s evs).1.pendingTimers ≤ s.pendingTimers) ∧
    (∀ s : TimedState, 0 < s.pendingTimers →
      (timerFireT (disconnectT s).1).socketsCreated = s.socketsCreated + 1 ∧
      (timerFireT (disconnectT s).1).ws = WsRef.notOpen) ∧
    (∀ s : TimedState, (handleOpenT s).reconnectCount = 0) := by
  refine ⟨?_, ?_, ?_, ?_, ?_, ?_, ?_⟩
  · intro cfg s h1 h2
    rw [handleCloseT, if_pos ⟨h1, h2⟩]
  · intro cfg s h
    rw [handleCloseT, if_neg]
    intro hcon
    exact absurd hcon.2 (by omega)
  · intro cfg s evs h hevs
    exact closesT_no_schedule cfg s h evs hevs
  · intro s
    exact ⟨rfl, rfl⟩
  · intro cfg s evs h
    exact runT_no_new_schedule cfg s evs h
  · intro s h
    have hp : ¬ s.pendingTimers = 0 := by omega
    simp [timerFireT, disconnectT, connectT, hp]
  · intro s
    rfl

/-- Witness for the amended C5 at the default configuration (3 attempts,
2000ms): a close at counter 0 arms one timer with delay 2000; at counter 3
a close only notifies, also over two further closes; disconnect clears the
flag but keeps the armed timer; after disconnect a close and a timer fire
add no new timer and only notify; the surviving timer fires into a second
constructed socket; open resets the counter. -/
theorem C5_ws_reconnect_policy_amended_witness :
    handleCloseT ⟨3, 2000⟩ ⟨WsRef.openRef, 0, true, 0, 1⟩ =
      (⟨WsRef.notOpen, 1, true, 1, 1⟩,
        CloseOutcome.scheduleReconnect 2000) ∧
    handleCloseT ⟨3, 2000⟩ ⟨WsRef.notOpen, 3, true, 0, 1⟩ =
      (⟨WsRef.notOpen, 3, true, 0, 1⟩, CloseOutcome.notifyCloseHandlers) ∧
    ((∀ o ∈ (runT ⟨3, 2000⟩ ⟨WsRef.notOpen, 3, true, 0, 1⟩
        [TEvent.closed, TEvent.closed]).2,
        o = CloseOutcome.notifyCloseHandlers) ∧
      (runT ⟨3, 2000⟩ ⟨WsRef.notOpen, 3, true, 0, 1⟩
        [TEvent.closed, TEvent.closed]).1.pendingTimers = 0) ∧
    ((disconnectT ⟨WsRef.notOpen, 1, true, 1, 1⟩).1.shouldReconnect =
        false ∧
      (disconnectT ⟨WsRef.notOpen, 1, true, 1, 1⟩).1.pendingTimers = 1) ∧
    ((∀ o ∈ (runT ⟨3, 2000⟩ ⟨WsRef.nullRef, 1, false, 1, 2⟩
        [TEvent.closed, TEvent.timerFired]).2,
        o = CloseOutcome.notifyCloseHandlers) ∧
      (runT ⟨3, 2000⟩ ⟨WsRef.nullRef, 1, false, 1, 2⟩
        [TEvent.closed, TEvent.timerFired]).1.pendingTimers ≤ 1) ∧
    ((timerFireT
          (disconnectT ⟨WsRef.notOpen, 1, true, 1, 1⟩).1).socketsCreated =
        1 + 1 ∧
      (timerFireT (disconnectT ⟨WsRef.notOpen, 1, true, 1, 1⟩).1).ws =
        WsRef.notOpen) ∧
    (handleOpenT ⟨WsRef.notOpen, 2, true, 0, 2⟩).reconnectCount = 0 := by
  have h := C5_ws_reconnect_policy_amended
  exact ⟨h.1 ⟨3, 2000⟩ ⟨WsRef.openRef, 0, true, 0, 1⟩ rfl (by decide),
    h.2.1 ⟨3, 2000⟩ ⟨WsRef.notOpen, 3, true, 0, 1⟩ (by decide),
    h.2.2.1 ⟨3, 2000⟩ ⟨WsRef.notOpen, 3, true, 0, 1⟩
      [TEvent.closed, TEvent.closed] (by decide) (by decide),
    h.2.2.2.1 ⟨WsRef.notOpen, 1, true, 1, 1⟩,
    h.2.2.2.2.1 ⟨3, 2000⟩ ⟨WsRef.nullRef, 1, false, 1, 2⟩
      [TEvent.closed, TEvent.timerFired] rfl,
    h.2.2.2.2.2.1 ⟨WsRef.notOpen, 1, true, 1, 1⟩ (by decide),
    h.2.2.2.2.2.2 ⟨WsRef.notOpen, 2, true, 0, 2⟩⟩

end Ws
